import Mathlib

/-!
Shallow embedding of the streaming recording pipeline of
src/rpi_files/pycam.py (class StreamingRecorder and the main button loop).

External effects (filesystem, subprocess spawning, process termination,
waits) are modelled by explicit environments of Booleans telling, for each
effectful call site, whether the call succeeds, fails by returning an error
value, or raises an exception.  The recorder object itself is the record
RecState with the three fields the Python class mutates:
recording_active, processes (the key set of the process dict) and
output_file.
-/

namespace Pycam

/-- Filesystem operation attempted while setting up a named pipe
(os.remove and os.mkfifo call sites). -/
inductive FSOp where
  | remove (p : String)
  | mkfifo (p : String)
deriving DecidableEq, Repr

/-- Environment for the filesystem effects of pipe creation: whether a
filesystem object already exists at a path, and whether os.remove or
os.mkfifo raises at that path. -/
structure FSEnv where
  existsAt : String → Bool
  removeFails : String → Bool
  mkfifoFails : String → Bool

/-- Embedding of StreamingRecorder.create_named_pipe (pycam.py lines 48-58).
The pipe path is folder_path joined with "video_stream".  Inside a try
block the code removes a pre-existing object at the path, then calls
os.mkfifo; any exception is caught and None is returned.  The second
component records the filesystem operations attempted, in order. -/
def create_named_pipe (env : FSEnv) (folder_path : String) :
    Option String × List FSOp :=
  let pipe_path := folder_path ++ "/video_stream"
  if env.existsAt pipe_path then
    if env.removeFails pipe_path then (none, [.remove pipe_path])
    else if env.mkfifoFails pipe_path then
      (none, [.remove pipe_path, .mkfifo pipe_path])
    else (some pipe_path, [.remove pipe_path, .mkfifo pipe_path])
  else
    if env.mkfifoFails pipe_path then (none, [.mkfifo pipe_path])
    else (some pipe_path, [.mkfifo pipe_path])

/-- State of the StreamingRecorder object: the recording_active flag, the
key set of the processes dict (insertion order), and output_file. -/
structure RecState where
  recording_active : Bool
  processes : List String
  output_file : Option String
deriving DecidableEq, Repr

/-- Python dict key-set semantics for an assignment processes[n] = p: a new
key is appended, an existing key keeps its position (its value is
overwritten, which the key set does not see). -/
def dictInsert (ps : List String) (n : String) : List String :=
  if ps.contains n then ps else ps ++ [n]

/-- Environment for the effects of stop_streaming_recording: per stage
name, whether the process is still alive (poll() is None), and whether each
termination call site raises; plus what the filesystem says about the
output file when stop validates it. -/
structure StopEnv where
  alive : String → Bool
  pollThrows : String → Bool
  terminateThrows : String → Bool
  waitTimesOut : String → Bool
  waitThrows : String → Bool
  killThrows : String → Bool
  outputExists : Bool
  outputSize : Nat

/-- Observable steps of the per-stage termination protocol in
stop_streaming_recording (pycam.py lines 271-300). -/
inductive StopEvent where
  | attempt (name : String)
  | terminateSig (name : String)
  | closeStdin (name : String)
  | waitGrace (name : String)
  | forceKill (name : String)
  | stageError (name : String)
deriving DecidableEq, Repr

/-- Embedding of the loop body of the termination loop in
stop_streaming_recording (pycam.py lines 272-300) for one stage name that
is present in the processes dict.  The whole body sits in a try block whose
except clause only prints, so an exception at any step (recorded as
stageError) ends this stage and the loop moves on.  For the camera the code
sends terminate first; for ffmpeg and gpg it closes stdin (errors there are
swallowed by an inner bare except); then it waits up to 5 seconds and on
timeout kills and reaps. -/
def terminateStage (env : StopEnv) (name : String) : List StopEvent :=
  StopEvent.attempt name ::
  (if env.pollThrows name then [.stageError name]
   else if env.alive name then
     if name == "camera" && env.terminateThrows name then
       [.terminateSig name, .stageError name]
     else
       (if name == "camera" then [.terminateSig name] else []) ++
       (if name == "ffmpeg" || name == "gpg" then [.closeStdin name] else []) ++
       (if env.waitTimesOut name then
          if env.killThrows name then
            [.waitGrace name, .forceKill name, .stageError name]
          else [.waitGrace name, .forceKill name]
        else if env.waitThrows name then [.waitGrace name, .stageError name]
        else [.waitGrace name])
   else [])

/-- Outcome of the final output-file check in stop_streaming_recording
(pycam.py lines 313-323): success log, empty-file warning, or the
no-output-file error. -/
inductive OutputOutcome where
  | success
  | emptyWarning
  | missingError
deriving DecidableEq, Repr

/-- Embedding of the output validation at the end of
stop_streaming_recording (pycam.py lines 313-323): if output_file is set
and exists on disk, a positive size logs success and size zero logs the
empty-output warning; otherwise the no-output-file error is logged. -/
def validateOutput (output_file : Option String) (existsOnDisk : Bool)
    (size : Nat) : OutputOutcome :=
  match output_file with
  | some _ =>
    if existsOnDisk then
      if size > 0 then .success else .emptyWarning
    else .missingError
  | none => .missingError

/-- Result of stop_streaming_recording: the recorder state after the final
reset, the order in which stages had their termination attempted, the
detailed termination events, and the output validation outcome. -/
structure StopResult where
  state : RecState
  termOrder : List String
  events : List StopEvent
  outcome : OutputOutcome
deriving Repr

/-- Embedding of StreamingRecorder.stop_streaming_recording (pycam.py
lines 262-328).  The code clears recording_active, then iterates the fixed
list camera, ffmpeg, gpg, terminating each stage whose name is a key of the
processes dict (each stage in its own try block), then removes the pipe
artifacts (filesystem only, no recorder field), validates the output file,
and finally clears processes and output_file unconditionally. -/
def stop_streaming_recording (env : StopEnv) (s : RecState) : StopResult :=
  let present := ["camera", "ffmpeg", "gpg"].filter
    (fun n => s.processes.contains n)
  { state := { recording_active := false, processes := [], output_file := none },
    termOrder := present,
    events := present.flatMap (terminateStage env),
    outcome := validateOutput s.output_file env.outputExists env.outputSize }

/-- Environment for the effects of start_streaming_recording: the
filesystem environment for both pipe creations, whether the rpicam-vid
Popen raises, whether the ffmpeg Popen raises, and the stop environment
used if the except branch unwinds. -/
structure StartEnv where
  fs : FSEnv
  cameraLaunchThrows : Bool
  ffmpegLaunchThrows : Bool
  stopEnv : StopEnv

/-- Embedding of StreamingRecorder.start_ffmpeg_conversion (pycam.py lines
116-145), taking the directory of the camera pipe (the dirname of
pipe_path, which is the session folder).  The mp4 pipe creation sits in its
own try block and returns (None, None) on failure; the ffmpeg Popen is
outside that try, so a spawn exception propagates to the caller (modelled
as Except.error).  The second component records the filesystem operations
attempted on the mp4 pipe path. -/
def start_ffmpeg_conversion (env : StartEnv) (pipe_dir : String) :
    Except Unit (Option String) × List FSOp :=
  let mp4_pipe := pipe_dir ++ "/mp4_stream"
  let pipeRes : Option String × List FSOp :=
    if env.fs.existsAt mp4_pipe then
      if env.fs.removeFails mp4_pipe then (none, [.remove mp4_pipe])
      else if env.fs.mkfifoFails mp4_pipe then
        (none, [.remove mp4_pipe, .mkfifo mp4_pipe])
      else (some mp4_pipe, [.remove mp4_pipe, .mkfifo mp4_pipe])
    else
      if env.fs.mkfifoFails mp4_pipe then (none, [.mkfifo mp4_pipe])
      else (some mp4_pipe, [.mkfifo mp4_pipe])
  match pipeRes with
  | (none, tr) => (.ok none, tr)
  | (some p, tr) =>
    if env.ffmpegLaunchThrows then (.error (), tr)
    else (.ok (some p), tr)

/-- Embedding of StreamingRecorder.start_gpg_encryption (pycam.py lines
147-191): the function only prints conceptual messages and returns None;
no cipher process is ever spawned. -/
def start_gpg_encryption (_mp4_pipe _encrypted_output : String) :
    Option Unit :=
  none

/-- Result of start_streaming_recording: the boolean return value, the
recorder state, the stage processes spawned during the call, whether the
fallback copy_mp4_to_output pump thread was started, and whether the
except branch invoked the stop_streaming_recording unwind. -/
structure StartResult where
  ok : Bool
  state : RecState
  launched : List String
  pumpStarted : Bool
  stopInvoked : Bool
deriving Repr

/-- Embedding of StreamingRecorder.start_streaming_recording (pycam.py
lines 193-260).  The code sets recording_active to True before anything
else, computes the output path from the timestamp, then inside a try
block: creates the camera pipe (returning False on a None result), spawns
the camera, records it in processes, calls start_ffmpeg_conversion
(returning False on a None result), records ffmpeg, calls
start_gpg_encryption (always None, so the fallback pump thread is
started), sets output_file and returns True.  Only an exception reaching
the except clause invokes stop_streaming_recording before returning
False. -/
def start_streaming_recording (env : StartEnv) (s : RecState)
    (folder_path timestamp : String) : StartResult :=
  let s0 : RecState := { s with recording_active := true }
  let encrypted_output :=
    folder_path ++ "/recording_" ++ timestamp ++ ".mp4"
  match (create_named_pipe env.fs folder_path).1 with
  | none =>
    { ok := false, state := s0, launched := [], pumpStarted := false,
      stopInvoked := false }
  | some _camera_pipe =>
    if env.cameraLaunchThrows then
      { ok := false, state := (stop_streaming_recording env.stopEnv s0).state,
        launched := [], pumpStarted := false, stopInvoked := true }
    else
      let s1 : RecState := { s0 with processes := dictInsert s0.processes "camera" }
      match (start_ffmpeg_conversion env folder_path).1 with
      | .error _ =>
        { ok := false,
          state := (stop_streaming_recording env.stopEnv s1).state,
          launched := ["camera"], pumpStarted := false, stopInvoked := true }
      | .ok none =>
        { ok := false, state := s1, launched := ["camera"],
          pumpStarted := false, stopInvoked := false }
      | .ok (some mp4_pipe) =>
        let s2 : RecState := { s1 with processes := dictInsert s1.processes "ffmpeg" }
        match start_gpg_encryption mp4_pipe encrypted_output with
        | some _ =>
          let s3 : RecState :=
            { s2 with processes := dictInsert s2.processes "gpg",
                      output_file := some encrypted_output }
          { ok := true, state := s3, launched := ["camera", "ffmpeg"],
            pumpStarted := false, stopInvoked := false }
        | none =>
          let s3 : RecState := { s2 with output_file := some encrypted_output }
          { ok := true, state := s3, launched := ["camera", "ffmpeg"],
            pumpStarted := true, stopInvoked := false }

/-- One loop iteration of the camera pump as observed by the loop guard
and the read call in stream_to_pipe (pycam.py lines 90-113): the value of
recording_active, whether camera_process.poll() is None (process alive),
and the chunk returned by stdout.read (an empty list is a zero-length
read). -/
structure PumpObs where
  active : Bool
  procAlive : Bool
  chunk : List Nat
deriving DecidableEq, Repr

/-- Embedding of the copy loop of stream_to_pipe (pycam.py lines 97-108)
over a finite trace of loop observations, threading bytes_written.  The
loop keeps running while recording_active holds and the camera process is
alive; a nonempty chunk is written and counted, an empty chunk only sleeps
one millisecond and retries.  When the guard fails (or the trace of
observations ends) the function returns bytes_written, which the source
prints as the total bytes streamed. -/
def stream_to_pipe : List PumpObs → Nat → Nat
  | [], bytes_written => bytes_written
  | ob :: rest, bytes_written =>
    if ob.active && ob.procAlive then
      if ob.chunk.isEmpty then stream_to_pipe rest bytes_written
      else stream_to_pipe rest (bytes_written + ob.chunk.length)
    else bytes_written

/-- One loop iteration of the output pump as observed by the loop guard
and the read call in copy_mp4_to_output (pycam.py lines 232-242). -/
structure CopyObs where
  active : Bool
  chunk : List Nat
deriving DecidableEq, Repr

/-- Embedding of the copy loop of copy_mp4_to_output (pycam.py lines
235-240): while recording_active holds, read a chunk; an empty chunk
breaks out of the loop, a nonempty chunk is written through and flushed.
The result is the list of chunks written to the output file. -/
def copy_mp4_to_output : List CopyObs → List (List Nat)
  | [] => []
  | ob :: rest =>
    if ob.active then
      if ob.chunk.isEmpty then []
      else ob.chunk :: copy_mp4_to_output rest
    else []

/-- Run record of copy_mp4_to_output: the chunks written and the byte
count it reports on exit.  The source function keeps no byte counter and
prints nothing on normal completion (its except clause prints only the
exception), so the reported count is none on every trace. -/
structure CopyRun where
  writes : List (List Nat)
  reportedBytes : Option Nat
deriving DecidableEq, Repr

/-- Observable run of copy_mp4_to_output on a trace: the chunks written,
and no reported byte count, faithful to the absence of any counter or
final print in pycam.py lines 232-242. -/
def copy_mp4_to_output_run (trace : List CopyObs) : CopyRun :=
  { writes := copy_mp4_to_output trace, reportedBytes := none }

/-- Action taken by the main loop on a button release (pycam.py lines
456-482): a short press starts a recording when idle and outside the
cooldown window, waits when inside it, and stops the recording when one is
active; a long press is debounced away. -/
inductive ButtonAction where
  | startRecording
  | stopRecording
  | cooldownWait
  | ignore
deriving DecidableEq, Repr

/-- Embedding of the button-release dispatch in main (pycam.py lines
456-482).  Times are in milliseconds; shortPress stands for
press_duration below half a second. -/
def buttonReleaseAction (recording_active : Bool) (shortPress : Bool)
    (current_time start_cooldown_until : Nat) : ButtonAction :=
  if shortPress then
    if !recording_active then
      if current_time < start_cooldown_until then .cooldownWait
      else .startRecording
    else .stopRecording
  else .ignore

/-- Filesystem environment where nothing pre-exists and nothing fails. -/
def fsQuiet : FSEnv :=
  { existsAt := fun _ => false, removeFails := fun _ => false,
    mkfifoFails := fun _ => false }

/-- Stop environment where every process has already exited and nothing
throws; the output file is absent. -/
def stopQuiet : StopEnv :=
  { alive := fun _ => false, pollThrows := fun _ => false,
    terminateThrows := fun _ => false, waitTimesOut := fun _ => false,
    waitThrows := fun _ => false, killThrows := fun _ => false,
    outputExists := false, outputSize := 0 }

/-- Start environment where every effect succeeds. -/
def envOK : StartEnv :=
  { fs := fsQuiet, cameraLaunchThrows := false, ffmpegLaunchThrows := false,
    stopEnv := stopQuiet }

/-- Start environment where creating the camera pipe (channel one) fails:
os.mkfifo raises at the video_stream path of the session folder "/f". -/
def envPipe1Fail : StartEnv :=
  { fs := { existsAt := fun _ => false, removeFails := fun _ => false,
            mkfifoFails := fun p => p == "/f/video_stream" },
    cameraLaunchThrows := false, ffmpegLaunchThrows := false,
    stopEnv := stopQuiet }

/-- Start environment where creating the mp4 pipe (channel two) fails:
os.mkfifo raises at the mp4_stream path of the session folder "/f". -/
def envMp4Fail : StartEnv :=
  { fs := { existsAt := fun _ => false, removeFails := fun _ => false,
            mkfifoFails := fun p => p == "/f/mp4_stream" },
    cameraLaunchThrows := false, ffmpegLaunchThrows := false,
    stopEnv := stopQuiet }

/-- Recorder state of a freshly constructed StreamingRecorder. -/
def idleState : RecState :=
  { recording_active := false, processes := [], output_file := none }

/-- Recorder state of a session that is currently recording: camera and
ffmpeg launched, output file set. -/
def activeState : RecState :=
  { recording_active := true, processes := ["camera", "ffmpeg"],
    output_file := some "/home/pi/assets/s0/recording_s0.mp4" }

/-- Stop environment where every stage is still alive and every
termination call site raises. -/
def envChaos : StopEnv :=
  { alive := fun _ => true, pollThrows := fun n => n == "camera",
    terminateThrows := fun _ => true, waitTimesOut := fun _ => true,
    waitThrows := fun _ => true, killThrows := fun _ => true,
    outputExists := false, outputSize := 0 }

/-- Stop environment where the output file exists but is empty. -/
def stopWithEmpty : StopEnv :=
  { stopQuiet with outputExists := true, outputSize := 0 }

/-- Filesystem environment where an object already exists at every path
and nothing fails. -/
def fsPre : FSEnv :=
  { existsAt := fun _ => true, removeFails := fun _ => false,
    mkfifoFails := fun _ => false }

/-- Start environment where stale pipe artifacts pre-exist at every path
and every effect succeeds. -/
def envPre : StartEnv :=
  { fs := fsPre, cameraLaunchThrows := false, ffmpegLaunchThrows := false,
    stopEnv := stopQuiet }

/-- Membership in the processes key set is preserved by inserting a
different key. -/
lemma mem_dictInsert_ne {ps : List String} {n m : String}
    (hm : ¬ m ∈ ps) (hne : m ≠ n) : ¬ m ∈ dictInsert ps n := by
  unfold dictInsert
  split_ifs with hc
  · exact hm
  · intro hmem
    rcases List.mem_append.mp hmem with h | h
    · exact hm h
    · exact hne (List.mem_singleton.mp h)

/-- C1 counterexample: with every effect succeeding, calling
start_streaming_recording on a state whose recording_active flag is
already true does not return false: it returns true, launches the camera
and ffmpeg stages again, and overwrites the first session's output_file.
The function performs no Active check. -/
theorem c1_counterexample :
    (start_streaming_recording envOK activeState "/f" "TS").ok = true ∧
    (start_streaming_recording envOK activeState "/f" "TS").launched
      = ["camera", "ffmpeg"] ∧
    (start_streaming_recording envOK activeState "/f" "TS").state.output_file
      = some "/f/recording_TS.mp4" ∧
    ¬ (start_streaming_recording envOK activeState "/f" "TS").state
      = activeState := by
  decide

/-- C1 amended: start_streaming_recording itself does not reject an
Active state (it re-enters and returns true, last conjunct); the
rejection lives in the caller: in the main button loop, a button release
while recording_active is true dispatches to stop_streaming_recording
(short press) or is debounced away, and never dispatches to start, so a
second start with no intervening stop is unreachable through the button
loop. -/
theorem c1_amended (current_time start_cooldown_until : Nat)
    (shortPress : Bool) :
    (buttonReleaseAction true shortPress current_time start_cooldown_until
        = ButtonAction.stopRecording ∨
     buttonReleaseAction true shortPress current_time start_cooldown_until
        = ButtonAction.ignore) ∧
    buttonReleaseAction true true current_time start_cooldown_until
      = ButtonAction.stopRecording ∧
    (start_streaming_recording envOK activeState "/f" "TS").ok = true := by
  refine ⟨?_, rfl, by decide⟩
  cases shortPress
  · exact Or.inr rfl
  · exact Or.inl rfl

/-- C2: for every stop environment, stopping a session whose processes
dict holds the camera and ffmpeg stages attempts their termination in the
order camera then ffmpeg, that is, in launch order (source first), not in
reverse of launch order as the code comment and the spec state. -/
theorem c2_termination_order (env : StopEnv) :
    (stop_streaming_recording env activeState).termOrder
      = ["camera", "ffmpeg"] := by
  rfl

/-- C3 counterexample: when creating channel two (the mp4 pipe inside
start_ffmpeg_conversion) fails, start_streaming_recording returns false
without invoking the stop unwind: the already-launched camera stage stays
in the processes dict and recording_active stays true. -/
theorem c3_counterexample :
    (start_streaming_recording envMp4Fail idleState "/f" "TS").ok = false ∧
    (start_streaming_recording envMp4Fail idleState "/f" "TS").stopInvoked
      = false ∧
    (start_streaming_recording envMp4Fail idleState "/f" "TS").state.processes
      = ["camera"] ∧
    (start_streaming_recording envMp4Fail idleState "/f" "TS").state.recording_active
      = true := by
  decide

/-- C3 amended: only failures raised as exceptions inside the try block
of start_streaming_recording (a stage Popen raising) invoke the full
stop unwind, which clears the processes dict; step failures reported as
None return values (channel-two creation failing inside
start_ffmpeg_conversion) make start return false immediately with no
unwind, leaving the launched camera stage in the processes dict and
recording_active true. -/
theorem c3_amended (env : StartEnv) (s : RecState) (folder ts : String) :
    ((start_streaming_recording env s folder ts).stopInvoked = true →
       (start_streaming_recording env s folder ts).ok = false ∧
       (start_streaming_recording env s folder ts).state.processes = []) ∧
    ((create_named_pipe env.fs folder).1.isSome = true →
       env.cameraLaunchThrows = false →
       (start_ffmpeg_conversion env folder).1 = Except.ok none →
       (start_streaming_recording env s folder ts).ok = false ∧
       (start_streaming_recording env s folder ts).stopInvoked = false ∧
       (start_streaming_recording env s folder ts).state.processes
         = dictInsert s.processes "camera" ∧
       (start_streaming_recording env s folder ts).state.recording_active
         = true) ∧
    ((create_named_pipe env.fs folder).1.isSome = true →
       env.cameraLaunchThrows = true →
       (start_streaming_recording env s folder ts).stopInvoked = true) ∧
    ((create_named_pipe env.fs folder).1.isSome = true →
       env.cameraLaunchThrows = false →
       (start_ffmpeg_conversion env folder).1 = Except.error () →
       (start_streaming_recording env s folder ts).stopInvoked = true) := by
  rcases h1 : (create_named_pipe env.fs folder).1 with _ | cp <;>
    cases hc : env.cameraLaunchThrows <;>
      rcases h2 : (start_ffmpeg_conversion env folder).1 with e | o <;>
        first
        | (cases o <;>
            simp [start_streaming_recording, start_gpg_encryption,
              stop_streaming_recording, h1, hc, h2])
        | simp [start_streaming_recording, start_gpg_encryption,
            stop_streaming_recording, h1, hc, h2]

/-- C3 amended witness: concrete channel-two failure at folder "/f". -/
theorem c3_amended_witness :
    (start_streaming_recording envMp4Fail idleState "/f" "TS").ok = false ∧
    (start_streaming_recording envMp4Fail idleState "/f" "TS").stopInvoked
      = false ∧
    (start_streaming_recording envMp4Fail idleState "/f" "TS").state.processes
      = dictInsert idleState.processes "camera" ∧
    (start_streaming_recording envMp4Fail idleState "/f" "TS").state.recording_active
      = true :=
  (c3_amended envMp4Fail idleState "/f" "TS").2.1 (by rfl) (by rfl) (by rfl)

/-- C4 counterexample: when channel-one creation fails,
start_streaming_recording returns false but the state is not Idle: the
shared recording_active flag was set to true before the pipe creation and
is not restored. -/
theorem c4_counterexample :
    (start_streaming_recording envPipe1Fail idleState "/f" "TS").ok = false ∧
    (start_streaming_recording envPipe1Fail idleState "/f" "TS").state.recording_active
      = true ∧
    ¬ (start_streaming_recording envPipe1Fail idleState "/f" "TS").state
      = idleState := by
  decide

/-- C4 amended: if channel-one creation fails, start returns false with
no stage launched, no stop unwind, processes and output_file unchanged,
but recording_active has been set true and is left true (the state is not
Idle). -/
theorem c4_amended (env : StartEnv) (s : RecState) (folder ts : String)
    (h : (create_named_pipe env.fs folder).1 = none) :
    (start_streaming_recording env s folder ts).ok = false ∧
    (start_streaming_recording env s folder ts).launched = [] ∧
    (start_streaming_recording env s folder ts).stopInvoked = false ∧
    (start_streaming_recording env s folder ts).state.processes
      = s.processes ∧
    (start_streaming_recording env s folder ts).state.output_file
      = s.output_file ∧
    (start_streaming_recording env s folder ts).state.recording_active
      = true := by
  simp [start_streaming_recording, h]

/-- C4 amended witness: concrete channel-one failure at folder "/f". -/
theorem c4_amended_witness :
    (start_streaming_recording envPipe1Fail idleState "/f" "TS").ok = false ∧
    (start_streaming_recording envPipe1Fail idleState "/f" "TS").launched
      = [] ∧
    (start_streaming_recording envPipe1Fail idleState "/f" "TS").stopInvoked
      = false ∧
    (start_streaming_recording envPipe1Fail idleState "/f" "TS").state.processes
      = idleState.processes ∧
    (start_streaming_recording envPipe1Fail idleState "/f" "TS").state.output_file
      = idleState.output_file ∧
    (start_streaming_recording envPipe1Fail idleState "/f" "TS").state.recording_active
      = true :=
  c4_amended envPipe1Fail idleState "/f" "TS" (by rfl)

/-- C5: stop_streaming_recording is idempotent.  Calling it on the Idle
state (flag false, no processes, no output file) leaves the state
unchanged and attempts no stage termination (and, the whole body being
try-protected or exception-free, it throws nothing, which the embedding
reflects by being a total function); and for every state and every pair
of environments, a second stop leaves the state of the first stop
unchanged and attempts no termination. -/
theorem c5_stop_idempotent (env env2 : StopEnv) (s : RecState) :
    ((stop_streaming_recording env idleState).state = idleState ∧
     (stop_streaming_recording env idleState).termOrder = []) ∧
    ((stop_streaming_recording env2
        (stop_streaming_recording env s).state).state
      = (stop_streaming_recording env s).state ∧
     (stop_streaming_recording env2
        (stop_streaming_recording env s).state).termOrder = []) :=
  ⟨⟨rfl, rfl⟩, rfl, rfl⟩

/-- C6 counterexample: in the camera pump stream_to_pipe a zero-length
read does not exit the loop: on a trace whose first read is empty while
the flag is up and the camera alive, the pump sleeps, retries and moves
three more bytes (result 3, not an exit reporting 0); and the output pump
copy_mp4_to_output reports no byte count at all on exit. -/
theorem c6_counterexample :
    stream_to_pipe
      [{ active := true, procAlive := true, chunk := [] },
       { active := true, procAlive := true, chunk := [7, 7, 7] },
       { active := false, procAlive := true, chunk := [] }] 0 = 3 ∧
    ¬ stream_to_pipe
      [{ active := true, procAlive := true, chunk := [] },
       { active := true, procAlive := true, chunk := [7, 7, 7] },
       { active := false, procAlive := true, chunk := [] }] 0 = 0 ∧
    (copy_mp4_to_output_run [{ active := true, chunk := [5] },
       { active := true, chunk := [] }]).reportedBytes = none := by
  decide

/-- C6 amended: the camera pump treats a zero-length read as idle (sleep
and retry with the byte count unchanged) and exits only when the shared
flag is false or the camera process has exited, returning the byte total
it then reports; the output pump does exit on a zero-length read (and on
a lowered flag) but keeps no byte counter and reports no byte count on
any trace. -/
theorem c6_amended (ob : PumpObs) (rest : List PumpObs) (b : Nat)
    (cob : CopyObs) (crest : List CopyObs) (tr : List CopyObs) :
    stream_to_pipe
      ({ active := true, procAlive := true, chunk := [] } :: rest) b
      = stream_to_pipe rest b ∧
    (ob.active = false ∨ ob.procAlive = false →
      stream_to_pipe (ob :: rest) b = b) ∧
    (cob.active = true → cob.chunk = [] →
      copy_mp4_to_output (cob :: crest) = []) ∧
    (copy_mp4_to_output_run tr).reportedBytes = none := by
  refine ⟨rfl, ?_, ?_, rfl⟩
  · rintro (h | h) <;> simp [stream_to_pipe, h]
  · intro h1 h2
    simp [copy_mp4_to_output, h1, h2]

/-- C6 amended witness: concrete traces for both pumps. -/
theorem c6_amended_witness :
    stream_to_pipe
      [({ active := true, procAlive := true, chunk := [] } : PumpObs)] 4
      = stream_to_pipe [] 4 ∧
    stream_to_pipe
      [({ active := false, procAlive := true, chunk := [9] } : PumpObs)] 4
      = 4 ∧
    copy_mp4_to_output [({ active := true, chunk := [] } : CopyObs)] = [] ∧
    (copy_mp4_to_output_run []).reportedBytes = none := by
  obtain ⟨h1, h2, h3, h4⟩ :=
    c6_amended ⟨false, true, [9]⟩ [] 4 ⟨true, []⟩ [] []
  exact ⟨h1, h2 (Or.inl rfl), h3 rfl rfl, h4⟩

/-- C7: the per-stage try block isolates termination errors: for every
stop environment (in particular one where any step of any stage raises),
every stage name present in the processes dict has its termination
attempted during stop_streaming_recording. -/
theorem c7_termination_isolated (env : StopEnv) (s : RecState) (n : String)
    (h1 : s.processes.contains n = true)
    (h2 : n ∈ (["camera", "ffmpeg", "gpg"] : List String)) :
    StopEvent.attempt n ∈ (stop_streaming_recording env s).events := by
  have hmem : n ∈ (["camera", "ffmpeg", "gpg"] : List String).filter
      (fun m => s.processes.contains m) :=
    List.mem_filter.mpr ⟨h2, h1⟩
  exact List.mem_flatMap.mpr ⟨n, hmem, List.mem_cons_self _ _⟩

/-- C7 witness: with every termination step raising (including the poll
of the camera, the stage before it), the ffmpeg stage of an active
session still has its termination attempted. -/
theorem c7_termination_isolated_witness :
    StopEvent.attempt "ffmpeg"
      ∈ (stop_streaming_recording envChaos activeState).events :=
  c7_termination_isolated envChaos activeState "ffmpeg" (by rfl) (by decide)

/-- C8: for every stop of a session whose output_file is set, the
validation outcome is exactly one of three mutually exclusive results:
success exactly when the file exists with positive size, the
empty-output warning exactly when it exists with size zero, and the
missing-output error exactly when it does not exist; the empty and
missing cases are never reported as success. -/
theorem c8_output_validation (env : StopEnv) (s : RecState) (f : String)
    (h : s.output_file = some f) :
    ((stop_streaming_recording env s).outcome = OutputOutcome.success ↔
      env.outputExists = true ∧ 0 < env.outputSize) ∧
    ((stop_streaming_recording env s).outcome = OutputOutcome.emptyWarning ↔
      env.outputExists = true ∧ env.outputSize = 0) ∧
    ((stop_streaming_recording env s).outcome = OutputOutcome.missingError ↔
      env.outputExists = false) := by
  have hout : (stop_streaming_recording env s).outcome
      = validateOutput (some f) env.outputExists env.outputSize := by
    simp [stop_streaming_recording, h]
  rw [hout]
  unfold validateOutput
  cases hex : env.outputExists <;> cases hn : env.outputSize <;>
    simp [hex, hn]

/-- C8 witness: an existing but empty output file of an active session is
reported as the empty-output warning, not as success. -/
theorem c8_output_validation_witness :
    ((stop_streaming_recording stopWithEmpty activeState).outcome
        = OutputOutcome.success ↔
      stopWithEmpty.outputExists = true ∧ 0 < stopWithEmpty.outputSize) ∧
    ((stop_streaming_recording stopWithEmpty activeState).outcome
        = OutputOutcome.emptyWarning ↔
      stopWithEmpty.outputExists = true ∧ stopWithEmpty.outputSize = 0) ∧
    ((stop_streaming_recording stopWithEmpty activeState).outcome
        = OutputOutcome.missingError ↔
      stopWithEmpty.outputExists = false) :=
  c8_output_validation stopWithEmpty activeState
    "/home/pi/assets/s0/recording_s0.mp4" rfl

/-- C9: for both pipe creations (create_named_pipe for channel one and
the mp4 pipe block inside start_ffmpeg_conversion): when an object
pre-exists at the pipe path its removal is the first filesystem operation
attempted, before the mkfifo; a failing removal of a pre-existing object
yields the error result; a failing mkfifo yields the error result; and a
returned channel always ends with a successful mkfifo of the path (no
partial channel). -/
theorem c9_channel_creation (env : FSEnv) (senv : StartEnv)
    (folder : String) :
    (env.existsAt (folder ++ "/video_stream") = true →
       (create_named_pipe env folder).2.head?
         = some (FSOp.remove (folder ++ "/video_stream"))) ∧
    (env.existsAt (folder ++ "/video_stream") = true →
       env.removeFails (folder ++ "/video_stream") = true →
       (create_named_pipe env folder).1 = none) ∧
    (env.mkfifoFails (folder ++ "/video_stream") = true →
       (create_named_pipe env folder).1 = none) ∧
    ((create_named_pipe env folder).1.isSome = true →
       (create_named_pipe env folder).2.getLast?
         = some (FSOp.mkfifo (folder ++ "/video_stream"))) ∧
    (senv.fs.existsAt (folder ++ "/mp4_stream") = true →
       (start_ffmpeg_conversion senv folder).2.head?
         = some (FSOp.remove (folder ++ "/mp4_stream"))) ∧
    (senv.fs.existsAt (folder ++ "/mp4_stream") = true →
       senv.fs.removeFails (folder ++ "/mp4_stream") = true →
       (start_ffmpeg_conversion senv folder).1 = Except.ok none) ∧
    (senv.fs.mkfifoFails (folder ++ "/mp4_stream") = true →
       (start_ffmpeg_conversion senv folder).1 = Except.ok none) := by
  unfold create_named_pipe start_ffmpeg_conversion
  dsimp only
  refine ⟨?_, ?_, ?_, ?_, ?_, ?_, ?_⟩ <;>
    · intros
      split_ifs <;> first | rfl | simp_all

/-- C9 witness: with stale artifacts pre-existing at both pipe paths and
nothing failing, both creations remove the stale object first. -/
theorem c9_channel_creation_witness :
    (create_named_pipe fsPre "/f").2.head?
      = some (FSOp.remove "/f/video_stream") ∧
    (start_ffmpeg_conversion envPre "/f").2.head?
      = some (FSOp.remove "/f/mp4_stream") :=
  ⟨(c9_channel_creation fsPre envPre "/f").1 rfl,
   (c9_channel_creation fsPre envPre "/f").2.2.2.2.1 rfl⟩

/-- C10: start_gpg_encryption always returns none (no cipher process is
spawned), the key gpg never enters the processes dict during
start_streaming_recording, and every successful start takes the
pass-through path (the fallback pump copying channel two to the output
file is started). -/
theorem c10_no_cipher_stage (env : StartEnv) (s : RecState)
    (folder ts mp ep : String) (h : ¬ "gpg" ∈ s.processes) :
    start_gpg_encryption mp ep = none ∧
    ¬ "gpg" ∈ (start_streaming_recording env s folder ts).state.processes ∧
    ((start_streaming_recording env s folder ts).ok = true →
      (start_streaming_recording env s folder ts).pumpStarted = true) := by
  refine ⟨rfl, ?_, ?_⟩
  · rcases h1 : (create_named_pipe env.fs folder).1 with _ | cp
    · simpa [start_streaming_recording, h1] using h
    · cases hc : env.cameraLaunchThrows
      · rcases h2 : (start_ffmpeg_conversion env folder).1 with e | o
        · simp [start_streaming_recording, stop_streaming_recording,
            h1, hc, h2]
        · cases o
          · simpa [start_streaming_recording, h1, hc, h2] using
              mem_dictInsert_ne h
                (show ("gpg" : String) ≠ "camera" by decide)
          · simpa [start_streaming_recording, start_gpg_encryption,
              h1, hc, h2] using
              mem_dictInsert_ne
                (mem_dictInsert_ne h
                  (show ("gpg" : String) ≠ "camera" by decide))
                (show ("gpg" : String) ≠ "ffmpeg" by decide)
      · simp [start_streaming_recording, stop_streaming_recording, h1, hc]
  · rcases h1 : (create_named_pipe env.fs folder).1 with _ | cp
    · simp [start_streaming_recording, h1]
    · cases hc : env.cameraLaunchThrows
      · rcases h2 : (start_ffmpeg_conversion env folder).1 with e | o
        · simp [start_streaming_recording, h1, hc, h2]
        · cases o <;>
            simp [start_streaming_recording, start_gpg_encryption,
              h1, hc, h2]
      · simp [start_streaming_recording, h1, hc]

/-- C10 witness: a successful start from the fresh recorder state never
holds a gpg process and starts the pass-through pump. -/
theorem c10_no_cipher_stage_witness :
    start_gpg_encryption "/f/mp4_stream" "/f/recording_TS.mp4" = none ∧
    ¬ "gpg" ∈ (start_streaming_recording envOK idleState "/f" "TS").state.processes ∧
    ((start_streaming_recording envOK idleState "/f" "TS").ok = true →
      (start_streaming_recording envOK idleState "/f" "TS").pumpStarted
        = true) :=
  c10_no_cipher_stage envOK idleState "/f" "TS" "/f/mp4_stream"
    "/f/recording_TS.mp4" (by decide)

end Pycam
